import Mathlib

/-!
# SudoDev frontend run controller — verification development

Shallow embedding of the run-orchestration logic in
`frontend/app/page.tsx` (the `Home` component: poll effect, `handleSubmit`,
`reset`), together with the presentation predicates of
`frontend/components/Results.tsx` and the `StatusBar` component.

The React component state (`useState` hooks) is modelled as the record
`HomeState`; the timer/network bookkeeping that React and the browser keep
implicitly (the `setInterval` handle, the number of outstanding `fetch`
calls, the pending `setTimeout` for the settle delay) is modelled
explicitly in `Sys`.  Events (`Event`) are the atomic occurrences the
event loop can deliver: an interval tick, the resolution of an outstanding
status fetch, the settle timeout firing, and the submit/reset handlers.

JavaScript truthiness in expressions such as `data.logs || []`,
`data.current_step || 0` and `data.patch || ""` is embedded by the
`jsOr*` helpers: `""` and `0` are falsy, arrays are always truthy, an
absent field is falsy.
-/

/-- Payload of `GET /api/status/{run_id}` as consumed by the poll handler:
`{ run_id, status, message?, logs?, current_step?, patch?, error? }`.
Optional fields are `Option`; `error` present models `data.error` truthy. -/
structure StatusData where
  status : String
  message : Option String
  logs : Option (List String)
  current_step : Option Nat
  patch : Option String
  error : Option String
deriving DecidableEq

/-- Payload of `POST /api/run`: `{ run_id, status }`; a failure payload may
omit `run_id`, and the handler treats a missing or empty `run_id` as falsy. -/
structure RunResponse where
  run_id : Option String
  resp_status : Option String
deriving DecidableEq

/-- Outcome of one status fetch: the parsed JSON body, or a thrown
network/parse failure (the `catch` branch of the poll callback). -/
inductive FetchResult where
  | ok (d : StatusData)
  | fail
deriving DecidableEq

/-- Outcome of the start-run fetch in `handleSubmit`. -/
inductive SubmitResult where
  | ok (d : RunResponse)
  | fail
deriving DecidableEq

/-- JavaScript `a || b` for an optional string value `a`: an absent field
and the empty string are falsy. -/
def jsOrStr : Option String → String → String
  | none, dflt => dflt
  | some s, dflt => if s = "" then dflt else s

/-- JavaScript `a || b` for an optional number value `a`: an absent field
and `0` are falsy. -/
def jsOrNat : Option Nat → Nat → Nat
  | none, dflt => dflt
  | some n, dflt => if n = 0 then dflt else n

/-- JavaScript `a || b` for an optional array value `a`: only an absent
field is falsy (an empty array is truthy). -/
def jsOrList : Option (List String) → List String → List String
  | none, dflt => dflt
  | some l, _ => l

/-- The `useState` fields of the `Home` component, in declaration order. -/
structure HomeState where
  view : String
  instanceId : String
  context : String
  runId : String
  status : String
  currentStep : Nat
  logs : List String
  loading : Bool
  patch : String
deriving DecidableEq

/-- Initial component state: `view="input"`, `status="idle"`, everything
else empty/zero/false. `reset` restores exactly this state. -/
def initialHome : HomeState :=
  { view := "input", instanceId := "", context := "", runId := ""
    status := "idle", currentStep := 0, logs := [], loading := false
    patch := "" }

/-- Component state plus the implicit timer/network bookkeeping:
`pollActive` — the poll `setInterval` of the current effect is installed
and not yet cleared; `inFlight` — number of status fetches started and not
yet resolved (`clearInterval` does not cancel them, and the code uses no
`AbortController`); `settlePending` — the 1-second `setTimeout` that
switches the view to `result` is scheduled and has not fired. -/
structure Sys where
  home : HomeState
  pollActive : Bool
  inFlight : Nat
  settlePending : Bool
deriving DecidableEq

/-- The system before any interaction. -/
def initSys : Sys :=
  { home := initialHome, pollActive := false, inFlight := 0
    settlePending := false }

/-- Poll cadence of the `setInterval` in the poll effect, in milliseconds. -/
def pollIntervalMs : Nat := 1500

/-- Settle delay of the `setTimeout` before showing the result view, in
milliseconds. -/
def settleDelayMs : Nat := 1000

/-- Body of the poll callback once its fetch has resolved, acting on the
component state and timers.  Mirrors the source line by line:
a thrown fetch (`catch`) clears the interval and sets `status="failed"`,
`view="result"`; a payload with `error` present does the same and returns
before any store update; otherwise `logs`, `currentStep`, `status`, `patch`
are each replaced from the payload (with `|| []`, `|| 0`, `|| ""`), and if
the new status is `completed` or `failed` the interval is cleared and the
settle timeout is scheduled. -/
def pollApply (s : Sys) (r : FetchResult) : Sys :=
  match r with
  | .fail =>
      { s with pollActive := false
               home := { s.home with status := "failed", view := "result" } }
  | .ok d =>
      match d.error with
      | some _ =>
          { s with pollActive := false
                   home := { s.home with status := "failed", view := "result" } }
      | none =>
          let h := { s.home with
                     logs := jsOrList d.logs []
                     currentStep := jsOrNat d.current_step 0
                     status := d.status
                     patch := jsOrStr d.patch "" }
          if d.status = "completed" ∨ d.status = "failed" then
            { s with home := h, pollActive := false, settlePending := true }
          else
            { s with home := h }

/-- Effect of the poll callback on the `useState` fields alone (the setter
calls), for a callback that runs after its owning effect was cleaned up:
`clearInterval` on the stale handle is a no-op, but the setters still act
on the live component state. -/
def pollApplyHome (h : HomeState) (r : FetchResult) : HomeState :=
  (pollApply { home := h, pollActive := false, inFlight := 0
               settlePending := false } r).home

/-- First half of `handleSubmit`, before the fetch:
`setLoading(true); setLogs([]); setCurrentStep(0); setStatus("pending")`. -/
def submitStart (h : HomeState) : HomeState :=
  { h with loading := true, logs := [], currentStep := 0, status := "pending" }

/-- Second half of `handleSubmit`, once the start-run fetch resolved:
`if (data.run_id) { setRunId; setStatus("processing"); setView("hud") }
else throw` — a thrown error (including a missing or empty, hence falsy,
`run_id`) is caught and sets `status="failed"`; `finally` clears
`loading`.  The view is left unchanged on failure. -/
def submitFinish (h : HomeState) (r : SubmitResult) : HomeState :=
  match r with
  | .fail => { h with status := "failed", loading := false }
  | .ok d =>
      match d.run_id with
      | none => { h with status := "failed", loading := false }
      | some rid =>
          if rid = "" then { h with status := "failed", loading := false }
          else { h with runId := rid, status := "processing", view := "hud"
                        loading := false }

/-- The `reset` handler: every `useState` field back to its initial value.
The poll effect's cleanup (triggered by the view/runId change) clears the
interval, but neither the outstanding fetches nor a pending settle timeout
are cancelled anywhere in the source. -/
def resetSys (s : Sys) : Sys :=
  { s with home := initialHome, pollActive := false }

/-- Atomic occurrences the event loop can deliver to the component. -/
inductive Event where
  | tick
  | resolve (r : FetchResult)
  | settleFire
  | submitStartEv
  | submitResolve (r : SubmitResult)
  | resetEv
deriving DecidableEq

/-- One event-loop step.  `tick`: the interval fires and its async callback
starts a status fetch — unconditionally, the source keeps no in-flight
flag.  `resolve`: one outstanding fetch resolves and the callback body
runs.  `settleFire`: the settle timeout fires, `setView("result")`, and
the effect cleanup for the leaving view clears the interval.
`submitResolve` re-runs the poll effect for the new `[view, runId]`:
the interval is installed iff `view="hud"` and `runId` non-empty. -/
def step (s : Sys) (e : Event) : Sys :=
  match e with
  | .tick =>
      if s.pollActive then { s with inFlight := s.inFlight + 1 } else s
  | .resolve r =>
      if s.inFlight = 0 then s
      else pollApply { s with inFlight := s.inFlight - 1 } r
  | .settleFire =>
      if s.settlePending then
        { s with settlePending := false, pollActive := false
                 home := { s.home with view := "result" } }
      else s
  | .submitStartEv => { s with home := submitStart s.home }
  | .submitResolve r =>
      let h := submitFinish s.home r
      { s with home := h
               pollActive := decide (h.view = "hud" ∧ h.runId ≠ "") }
  | .resetEv => resetSys s

/-- Run a list of events from a state. -/
def stepTrace (s : Sys) (es : List Event) : Sys :=
  es.foldl step s

/-- The controller phases of the specification, as an abstraction of the
concrete component state. -/
inductive Phase where
  | idle
  | submitting
  | active
  | settling
  | terminalResolved
  | terminalFailed
deriving DecidableEq

/-- Abstraction map from concrete state to spec phase: the `result` view is
terminal (resolved iff `status="completed"`, per `Results.tsx`); the `hud`
view is Settling while the settle timeout is pending and Active otherwise;
the `input` view is Submitting while `loading` and Idle otherwise. -/
def phase (s : Sys) : Phase :=
  if s.home.view = "result" then
    if s.home.status = "completed" then .terminalResolved else .terminalFailed
  else if s.home.view = "hud" then
    if s.settlePending then .settling else .active
  else if s.home.loading then .submitting else .idle

/-- The `STATUS_COLORS` record of the `StatusBar` component. -/
def STATUS_COLORS : List (String × String) :=
  [("idle", "bg-zinc-500"), ("processing", "bg-amber-500"),
   ("completed", "bg-emerald-500"), ("error", "bg-rose-500")]

/-- `STATUS_COLORS[status] || STATUS_COLORS.error` in `StatusBar`. -/
def statusColor (status : String) : String :=
  jsOrStr (STATUS_COLORS.lookup status) "bg-rose-500"

/-- `Results.tsx`: `isSuccess = status === "completed"`. -/
def resultsIsSuccess (status : String) : Bool := status == "completed"

/-- `Results.tsx` renders the patch block (and the download button) iff
`isSuccess && patch` — a truthy, i.e. non-empty, patch on success. -/
def resultsShowsPatch (status patch : String) : Bool :=
  resultsIsSuccess status && patch != ""

/-! ## Helper lemmas -/

theorem jsOrStr_some_empty (p : String) : jsOrStr (some p) "" = p := by
  by_cases h : p = "" <;> simp [jsOrStr, h]

theorem jsOrNat_some_zero (n : Nat) : jsOrNat (some n) 0 = n := by
  by_cases h : n = 0 <;> simp [jsOrNat, h]

theorem jsOrList_some (l d : List String) : jsOrList (some l) d = l := rfl

/-! ## Claims -/

/-- C1: from the Active phase, an observation with status `completed`
stops the poller and moves to Settling; after the 1-second settle delay
the phase is Terminal(Resolved) and the exposed artifact equals the
`patch` field of that final observation; a `failed` status instead
reaches Terminal(Failed) after the same delay. -/
theorem active_terminal_status_settles
    (s : Sys) (d : StatusData)
    (hview : s.home.view = "hud") (hsp : s.settlePending = false)
    (hpoll : s.pollActive = true) (hin : 1 ≤ s.inFlight)
    (herr : d.error = none)
    (hterm : d.status = "completed" ∨ d.status = "failed") :
    phase s = .active ∧
    (step s (.resolve (.ok d))).pollActive = false ∧
    phase (step s (.resolve (.ok d))) = .settling ∧
    settleDelayMs = 1000 ∧
    phase (step (step s (.resolve (.ok d))) .settleFire) =
      (if d.status = "completed" then .terminalResolved else .terminalFailed) ∧
    ∀ p, d.patch = some p →
      (step (step s (.resolve (.ok d))) .settleFire).home.patch = p := by
  obtain ⟨⟨view, iid, ctx, rid, stt, cstep, lgs, ld, pch⟩, pa, infl, sp⟩ := s
  obtain ⟨dst, dmsg, dlogs, dcs, dpatch, derr⟩ := d
  simp only at hview hsp hpoll herr hin
  subst hview hsp hpoll herr
  cases infl with
  | zero => omega
  | succ n =>
    rcases hterm with h | h <;> subst h <;>
      refine ⟨by simp [phase], by simp [step, pollApply], by simp [step, pollApply, phase],
              rfl, by simp [step, pollApply, phase], ?_⟩ <;>
      · intro p hp
        simp only at hp
        subst hp
        simp [step, pollApply, jsOrStr_some_empty]

/-- A representative Active-phase system: hud view, a stored run id, one
poll in flight. -/
def hudSys : Sys :=
  { home := { initialHome with
              view := "hud", runId := "abc123", status := "processing" },
    pollActive := true, inFlight := 1, settlePending := false }

/-- A `completed` observation carrying a patch. -/
def obsCompleted : StatusData :=
  { status := "completed", message := none
    logs := some ["starting", "analyzing"], current_step := some 5
    patch := some "--- a/x.py", error := none }

/-- A non-terminal `processing` observation. -/
def obsProcessing : StatusData :=
  { status := "processing", message := none, logs := some ["starting"]
    current_step := some 2, patch := none, error := none }

theorem active_terminal_status_settles_witness :
    phase hudSys = .active ∧
    (step hudSys (.resolve (.ok obsCompleted))).pollActive = false ∧
    phase (step hudSys (.resolve (.ok obsCompleted))) = .settling ∧
    settleDelayMs = 1000 ∧
    phase (step (step hudSys (.resolve (.ok obsCompleted))) .settleFire) =
      .terminalResolved ∧
    (step (step hudSys (.resolve (.ok obsCompleted))) .settleFire).home.patch =
      "--- a/x.py" := by
  have h := active_terminal_status_settles hudSys obsCompleted rfl rfl rfl
    (by decide) rfl (Or.inl rfl)
  refine ⟨h.1, h.2.1, h.2.2.1, h.2.2.2.1, ?_, h.2.2.2.2.2 _ rfl⟩
  simpa using h.2.2.2.2.1

/-- C2: from the Active phase, an observation whose payload carries an
`error` field goes straight to Terminal(Failed): the poller is stopped, no
settle timeout is scheduled, and the observation's logs, step index and
patch are not applied to the store. -/
theorem active_error_fails_immediately
    (s : Sys) (d : StatusData) (msg : String)
    (hview : s.home.view = "hud") (hsp : s.settlePending = false)
    (hpoll : s.pollActive = true) (hin : 1 ≤ s.inFlight)
    (herr : d.error = some msg) :
    phase s = .active ∧
    (step s (.resolve (.ok d))).pollActive = false ∧
    (step s (.resolve (.ok d))).settlePending = false ∧
    phase (step s (.resolve (.ok d))) = .terminalFailed ∧
    (step s (.resolve (.ok d))).home.logs = s.home.logs ∧
    (step s (.resolve (.ok d))).home.currentStep = s.home.currentStep ∧
    (step s (.resolve (.ok d))).home.patch = s.home.patch := by
  obtain ⟨⟨view, iid, ctx, rid, stt, cstep, lgs, ld, pch⟩, pa, infl, sp⟩ := s
  obtain ⟨dst, dmsg, dlogs, dcs, dpatch, derr⟩ := d
  simp only at hview hsp hpoll herr hin
  subst hview hsp hpoll herr
  cases infl with
  | zero => omega
  | succ n =>
    exact ⟨by simp [phase], by simp [step, pollApply],
           by simp [step, pollApply], by simp [step, pollApply, phase],
           by simp [step, pollApply], by simp [step, pollApply],
           by simp [step, pollApply]⟩

/-- An observation whose payload carries an `error` field. -/
def obsError : StatusData :=
  { status := "processing", message := none, logs := some ["boom"]
    current_step := some 3, patch := some "PARTIAL", error := some "agent crashed" }

theorem active_error_fails_immediately_witness :
    phase hudSys = .active ∧
    (step hudSys (.resolve (.ok obsError))).pollActive = false ∧
    (step hudSys (.resolve (.ok obsError))).settlePending = false ∧
    phase (step hudSys (.resolve (.ok obsError))) = .terminalFailed ∧
    (step hudSys (.resolve (.ok obsError))).home.logs = hudSys.home.logs ∧
    (step hudSys (.resolve (.ok obsError))).home.currentStep =
      hudSys.home.currentStep ∧
    (step hudSys (.resolve (.ok obsError))).home.patch = hudSys.home.patch :=
  active_error_fails_immediately hudSys obsError "agent crashed" rfl rfl rfl
    (by decide) rfl

/-- One full poll cycle: the interval tick starts a fetch, which then
resolves with observation `d`. -/
def pollCycle (s : Sys) (d : StatusData) : Sys :=
  step (step s .tick) (.resolve (.ok d))

/-- A sequence of poll cycles, applied in arrival order (polls that do not
overlap resolve in the order their ticks fired). -/
def pollCycles (s : Sys) (ds : List StatusData) : Sys :=
  ds.foldl pollCycle s

/-- An observation without an `error` field whose status is neither
`completed` nor `failed`. -/
def nonTerminalObs (d : StatusData) : Prop :=
  d.error = none ∧ d.status ≠ "completed" ∧ d.status ≠ "failed"

/-- The concrete-state counterpart of the Active phase: hud view, the
interval installed, no settle timeout pending. -/
def activeState (s : Sys) : Prop :=
  s.home.view = "hud" ∧ s.pollActive = true ∧ s.settlePending = false

theorem pollCycle_nonterminal (s : Sys) (d : StatusData)
    (hs : activeState s) (hd : nonTerminalObs d) :
    activeState (pollCycle s d) ∧
    (pollCycle s d).home.logs = jsOrList d.logs [] ∧
    (pollCycle s d).home.currentStep = jsOrNat d.current_step 0 ∧
    (pollCycle s d).home.status = d.status ∧
    (pollCycle s d).home.patch = jsOrStr d.patch "" := by
  obtain ⟨h1, h2, h3⟩ := hs
  obtain ⟨e1, e2, e3⟩ := hd
  obtain ⟨⟨view, iid, ctx, rid, stt, cstep, lgs, ld, pch⟩, pa, infl, sp⟩ := s
  obtain ⟨dst, dmsg, dlogs, dcs, dpatch, derr⟩ := d
  simp only at h1 h2 h3 e1 e2 e3
  subst h1 h2 h3 e1
  simp [pollCycle, step, pollApply, activeState, e2, e3]

theorem pollCycles_active (ds : List StatusData) : ∀ s : Sys,
    activeState s → (∀ d ∈ ds, nonTerminalObs d) →
    activeState (pollCycles s ds) := by
  induction ds with
  | nil => intro s hs _; simpa [pollCycles] using hs
  | cons d rest ih =>
      intro s hs hall
      have h := pollCycle_nonterminal s d hs (hall d (by simp))
      have := ih (pollCycle s d) h.1 (fun x hx => hall x (by simp [hx]))
      simpa [pollCycles] using this

/-- C3: across any sequence of applied observations that are non-terminal
(status neither `completed` nor `failed`, no `error` field) the controller
stays in the Active phase with the poller running, and the store's log
lines and current step index equal exactly the values carried by the
last-applied observation — full replacement, no merging or appending. -/
theorem active_nonterminal_sequence_replaces
    (s : Sys) (ds : List StatusData) (d : StatusData)
    (hview : s.home.view = "hud") (hpoll : s.pollActive = true)
    (hsp : s.settlePending = false)
    (hall : ∀ x ∈ ds, nonTerminalObs x) (hd : nonTerminalObs d) :
    phase (pollCycles s (ds ++ [d])) = .active ∧
    (pollCycles s (ds ++ [d])).pollActive = true ∧
    (pollCycles s (ds ++ [d])).home.logs = jsOrList d.logs [] ∧
    (pollCycles s (ds ++ [d])).home.currentStep = jsOrNat d.current_step 0 ∧
    (pollCycles s (ds ++ [d])).home.status = d.status ∧
    (∀ L, d.logs = some L → (pollCycles s (ds ++ [d])).home.logs = L) ∧
    (∀ n, d.current_step = some n →
       (pollCycles s (ds ++ [d])).home.currentStep = n) := by
  have hmid := pollCycles_active ds s ⟨hview, hpoll, hsp⟩ hall
  have happ : pollCycles s (ds ++ [d]) = pollCycle (pollCycles s ds) d := by
    simp [pollCycles, List.foldl_append]
  have h := pollCycle_nonterminal (pollCycles s ds) d hmid hd
  rw [happ]
  obtain ⟨⟨a1, a2, a3⟩, hl, hc, hst, hp⟩ := h
  refine ⟨by simp [phase, a1, a3], a2, hl, hc, hst, ?_, ?_⟩
  · intro L hL; rw [hl, hL, jsOrList_some]
  · intro n hn; rw [hc, hn, jsOrNat_some_zero]

/-- A later non-terminal observation with different logs and step. -/
def obsProcessing2 : StatusData :=
  { status := "processing", message := none
    logs := some ["starting", "reproducing"], current_step := some 3
    patch := none, error := none }

theorem active_nonterminal_sequence_replaces_witness :
    phase (pollCycles hudSys ([obsProcessing] ++ [obsProcessing2])) = .active ∧
    (pollCycles hudSys ([obsProcessing] ++ [obsProcessing2])).pollActive = true ∧
    (pollCycles hudSys ([obsProcessing] ++ [obsProcessing2])).home.logs =
      ["starting", "reproducing"] ∧
    (pollCycles hudSys ([obsProcessing] ++ [obsProcessing2])).home.currentStep = 3 ∧
    (pollCycles hudSys ([obsProcessing] ++ [obsProcessing2])).home.status =
      "processing" := by
  have h := active_nonterminal_sequence_replaces hudSys [obsProcessing]
    obsProcessing2 rfl rfl rfl
    (by intro x hx
        simp at hx
        subst hx
        exact ⟨rfl, by decide, by decide⟩)
    ⟨rfl, by decide, by decide⟩
  exact ⟨h.1, h.2.1, h.2.2.2.2.2.1 _ rfl, h.2.2.2.2.2.2 _ rfl, h.2.2.2.2.1⟩

/-- A start-run response carrying a run id, as in the spec scenario. -/
def runAccepted : RunResponse :=
  { run_id := some "abc123", resp_status := some "pending" }

/-- System state reached by: submit, run accepted, two ticks (two fetches
started), the second resolving `completed`, the settle timeout firing, and
the user pressing reset — with the first fetch still outstanding. -/
def postResetSys : Sys :=
  stepTrace initSys
    [.submitStartEv, .submitResolve (.ok runAccepted),
     .tick, .tick, .resolve (.ok obsCompleted), .settleFire, .resetEv]

/-- C4 counterexample: after reset the session is back to its initial
empty value, yet one status fetch issued for the earlier run is still
outstanding; when it resolves, its payload is applied to the fresh
session (status becomes "processing", logs are overwritten) — an
observable effect of a pre-reset poll after the reset. -/
theorem stale_response_mutates_after_reset :
    postResetSys.home = initialHome ∧
    postResetSys.inFlight = 1 ∧
    (step postResetSys (.resolve (.ok obsProcessing))).home.status =
      "processing" ∧
    (step postResetSys (.resolve (.ok obsProcessing))).home.logs =
      ["starting"] ∧
    (step postResetSys (.resolve (.ok obsProcessing))).home ≠ initialHome := by
  decide

/-- C4 amended: `reset()` from any state returns the controller to the
initial empty session with the poll interval cleared, so any tick
scheduled before the reset has no effect after it; but a status response
already in flight when reset is pressed is not cancelled and not guarded
by run id — when it arrives it is still applied to the fresh session. -/
theorem reset_clears_timer_but_not_inflight
    (s : Sys) (d : StatusData) (hin : 1 ≤ s.inFlight) (herr : d.error = none) :
    (step s .resetEv).home = initialHome ∧
    (step s .resetEv).pollActive = false ∧
    phase (step s .resetEv) = .idle ∧
    step (step s .resetEv) .tick = step s .resetEv ∧
    (step (step s .resetEv) (.resolve (.ok d))).home.status = d.status ∧
    (step (step s .resetEv) (.resolve (.ok d))).home.logs =
      jsOrList d.logs [] := by
  obtain ⟨⟨view, iid, ctx, rid, stt, cstep, lgs, ld, pch⟩, pa, infl, sp⟩ := s
  obtain ⟨dst, dmsg, dlogs, dcs, dpatch, derr⟩ := d
  simp only at hin herr
  subst herr
  cases infl with
  | zero => omega
  | succ n =>
    refine ⟨rfl, rfl, by simp [phase, step, resetSys, initialHome],
            by simp [step, resetSys], ?_, ?_⟩ <;>
      by_cases hterm : dst = "completed" ∨ dst = "failed" <;>
        simp [step, resetSys, pollApply, hterm]

theorem reset_clears_timer_but_not_inflight_witness :
    (step postResetSys .resetEv).home = initialHome ∧
    (step postResetSys .resetEv).pollActive = false ∧
    phase (step postResetSys .resetEv) = .idle ∧
    step (step postResetSys .resetEv) .tick = step postResetSys .resetEv ∧
    (step (step postResetSys .resetEv) (.resolve (.ok obsProcessing))).home.status =
      "processing" ∧
    (step (step postResetSys .resetEv) (.resolve (.ok obsProcessing))).home.logs =
      jsOrList obsProcessing.logs [] := by
  have h := reset_clears_timer_but_not_inflight postResetSys obsProcessing
    (by decide) rfl
  exact ⟨h.1, h.2.1, h.2.2.1, h.2.2.2.1, h.2.2.2.2.1, h.2.2.2.2.2⟩

/-- Start-run outcomes the submit handler treats as failure: a thrown
fetch, or a response whose `run_id` is absent or empty (falsy), which
makes the handler throw and land in its own `catch`. -/
def submitRejected : SubmitResult → Prop
  | .fail => True
  | .ok d => d.run_id = none ∨ d.run_id = some ""

/-- System state after a submission whose start-run fetch failed. -/
def submitFailedSys : Sys :=
  stepTrace initSys [.submitStartEv, .submitResolve .fail]

/-- C5 counterexample: after a failed `startRun` the controller does not
reach Terminal(Failed) — the view stays `input` (the result screen is
never shown), so the phase abstraction is Idle, not Terminal(Failed),
even though the status field reads "failed". -/
theorem submit_failure_no_terminal_counterexample :
    submitFailedSys.home.view = "input" ∧
    submitFailedSys.home.status = "failed" ∧
    phase submitFailedSys = .idle ∧
    phase submitFailedSys ≠ .terminalFailed := by
  decide

/-- C5 amended: when `startRun` fails — a thrown fetch or a response
without a usable `run_id` — no run id is ever stored, no poller is
started, and no session data survives (`logs` and `currentStep` were
cleared at submit time); but instead of Terminal(Failed) the controller
sets `status="failed"` and stays on the input view, i.e. the phase
returns to Idle. -/
theorem submit_failure_stays_on_input
    (s : Sys) (r : SubmitResult)
    (hview : s.home.view = "input") (hpoll : s.pollActive = false)
    (hr : submitRejected r) :
    (step (step s .submitStartEv) (.submitResolve r)).home.runId =
      s.home.runId ∧
    (step (step s .submitStartEv) (.submitResolve r)).pollActive = false ∧
    (step (step s .submitStartEv) (.submitResolve r)).home.view = "input" ∧
    (step (step s .submitStartEv) (.submitResolve r)).home.status = "failed" ∧
    (step (step s .submitStartEv) (.submitResolve r)).home.loading = false ∧
    (step (step s .submitStartEv) (.submitResolve r)).home.logs = [] ∧
    (step (step s .submitStartEv) (.submitResolve r)).home.currentStep = 0 ∧
    phase (step (step s .submitStartEv) (.submitResolve r)) = .idle := by
  obtain ⟨⟨view, iid, ctx, rid, stt, cstep, lgs, ld, pch⟩, pa, infl, sp⟩ := s
  simp only at hview hpoll
  subst hview hpoll
  match r, hr with
  | .fail, _ =>
      simp [step, submitStart, submitFinish, phase]
  | .ok d, hr =>
      obtain ⟨drid, drst⟩ := d
      rcases hr with h | h <;> simp only at h <;> subst h <;>
        simp [step, submitStart, submitFinish, phase]

theorem submit_failure_stays_on_input_witness :
    (step (step initSys .submitStartEv) (.submitResolve .fail)).home.runId =
      initSys.home.runId ∧
    (step (step initSys .submitStartEv) (.submitResolve .fail)).pollActive =
      false ∧
    (step (step initSys .submitStartEv) (.submitResolve .fail)).home.view =
      "input" ∧
    (step (step initSys .submitStartEv) (.submitResolve .fail)).home.status =
      "failed" ∧
    (step (step initSys .submitStartEv) (.submitResolve .fail)).home.loading =
      false ∧
    (step (step initSys .submitStartEv) (.submitResolve .fail)).home.logs =
      [] ∧
    (step (step initSys .submitStartEv) (.submitResolve .fail)).home.currentStep =
      0 ∧
    phase (step (step initSys .submitStartEv) (.submitResolve .fail)) =
      .idle :=
  submit_failure_stays_on_input initSys .fail rfl rfl trivial

/-- System state after a run is accepted and two interval ticks fire with
neither fetch yet resolved. -/
def twoTicksSys : Sys :=
  stepTrace initSys
    [.submitStartEv, .submitResolve (.ok runAccepted), .tick, .tick]

/-- C6 counterexample: with the first poll still outstanding, the next
interval tick starts a second fetch instead of being skipped — two polls
are then in flight for the same run. -/
theorem overlapping_polls_counterexample :
    twoTicksSys.pollActive = true ∧ twoTicksSys.inFlight = 2 := by
  decide

/-- C6 amended: the poll interval (cadence 1.5 s) keeps no in-flight flag:
every tick while the interval is installed starts a new status fetch
unconditionally, so when a response is slower than the cadence the polls
overlap rather than the tick being skipped. -/
theorem tick_always_starts_poll (s : Sys) (h : s.pollActive = true) :
    (step s .tick).inFlight = s.inFlight + 1 ∧ pollIntervalMs = 1500 := by
  obtain ⟨hm, pa, infl, sp⟩ := s
  simp only at h
  subst h
  exact ⟨by simp [step], rfl⟩

theorem tick_always_starts_poll_witness :
    (step twoTicksSys .tick).inFlight = twoTicksSys.inFlight + 1 ∧
    pollIntervalMs = 1500 :=
  tick_always_starts_poll twoTicksSys (by decide)

/-- C7: a single transport failure of a status poll is fatal for the run:
the interval is cleared (no retry — a later tick has no effect), the run
ends in Terminal(Failed), and the resulting state is identical to the one
produced by an errorIndicator observation arriving. -/
theorem poll_transport_failure_fatal
    (s : Sys)
    (hview : s.home.view = "hud") (hsp : s.settlePending = false)
    (hpoll : s.pollActive = true) (hin : 1 ≤ s.inFlight) :
    (step s (.resolve .fail)).pollActive = false ∧
    (step s (.resolve .fail)).home.status = "failed" ∧
    phase (step s (.resolve .fail)) = .terminalFailed ∧
    step (step s (.resolve .fail)) .tick = step s (.resolve .fail) ∧
    step s (.resolve .fail) =
      step s (.resolve (.ok { status := "", message := none, logs := none
                              current_step := none, patch := none
                              error := some "transport failure" })) := by
  obtain ⟨⟨view, iid, ctx, rid, stt, cstep, lgs, ld, pch⟩, pa, infl, sp⟩ := s
  simp only at hview hsp hpoll hin
  subst hview hsp hpoll
  cases infl with
  | zero => omega
  | succ n =>
    exact ⟨by simp [step, pollApply], by simp [step, pollApply],
           by simp [step, pollApply, phase], by simp [step, pollApply],
           by simp [step, pollApply]⟩

theorem poll_transport_failure_fatal_witness :
    (step hudSys (.resolve .fail)).pollActive = false ∧
    (step hudSys (.resolve .fail)).home.status = "failed" ∧
    phase (step hudSys (.resolve .fail)) = .terminalFailed ∧
    step (step hudSys (.resolve .fail)) .tick = step hudSys (.resolve .fail) ∧
    step hudSys (.resolve .fail) =
      step hudSys (.resolve (.ok { status := "", message := none, logs := none
                                   current_step := none, patch := none
                                   error := some "transport failure" })) :=
  poll_transport_failure_fatal hudSys rfl rfl rfl (by decide)

/-- C8: in the failed terminal state the result view exposes no artifact,
whatever patch text the store holds; the patch block and download button
render only when the terminal status is `completed` and the patch is
non-empty. -/
theorem failed_terminal_hides_artifact
    (s : Sys) (hview : s.home.view = "result")
    (hst : s.home.status ≠ "completed") :
    phase s = .terminalFailed ∧
    resultsShowsPatch s.home.status s.home.patch = false ∧
    (∀ st pa : String,
      resultsShowsPatch st pa = true ↔ (st = "completed" ∧ pa ≠ "")) := by
  refine ⟨by simp [phase, hview, hst], ?_, ?_⟩
  · simp [resultsShowsPatch, resultsIsSuccess, hst]
  · intro st pa
    simp [resultsShowsPatch, resultsIsSuccess]

/-- A non-terminal observation that already carries a patch. -/
def obsPatchEarly : StatusData :=
  { status := "processing", message := none, logs := some ["fix drafted"]
    current_step := some 4, patch := some "--- a/partial.py", error := none }

/-- A run that stored a non-empty patch from an intermediate observation
and then failed on an errorIndicator observation. -/
def failedWithPatchSys : Sys :=
  stepTrace initSys
    [.submitStartEv, .submitResolve (.ok runAccepted),
     .tick, .resolve (.ok obsPatchEarly), .tick, .resolve (.ok obsError)]

theorem failed_terminal_hides_artifact_witness :
    failedWithPatchSys.home.patch = "--- a/partial.py" ∧
    phase failedWithPatchSys = .terminalFailed ∧
    resultsShowsPatch failedWithPatchSys.home.status
      failedWithPatchSys.home.patch = false ∧
    (resultsShowsPatch "completed" "--- a/partial.py" = true ↔
      ("completed" : String) = "completed" ∧ ("--- a/partial.py" : String) ≠ "") := by
  have h := failed_terminal_hides_artifact failedWithPatchSys rfl (by decide)
  exact ⟨by decide, h.1, h.2.1, h.2.2 _ _⟩

/-- C9: for an applied observation the stored step index is `current_step`
when present and non-zero and `0` otherwise, and the stored artifact is
`patch` when present and non-empty and `""` otherwise — an absent
`current_step` coincides with step `0`, an absent `patch` with the empty
artifact. -/
theorem observation_falsy_defaults
    (s : Sys) (d : StatusData) (hin : 1 ≤ s.inFlight) (herr : d.error = none) :
    (∀ n, d.current_step = some n → n ≠ 0 →
      (step s (.resolve (.ok d))).home.currentStep = n) ∧
    (d.current_step = some 0 →
      (step s (.resolve (.ok d))).home.currentStep = 0) ∧
    (d.current_step = none →
      (step s (.resolve (.ok d))).home.currentStep = 0) ∧
    (∀ p, d.patch = some p → p ≠ "" →
      (step s (.resolve (.ok d))).home.patch = p) ∧
    (d.patch = some "" → (step s (.resolve (.ok d))).home.patch = "") ∧
    (d.patch = none → (step s (.resolve (.ok d))).home.patch = "") := by
  obtain ⟨⟨view, iid, ctx, rid, stt, cstep, lgs, ld, pch⟩, pa, infl, sp⟩ := s
  obtain ⟨dst, dmsg, dlogs, dcs, dpatch, derr⟩ := d
  simp only at hin herr
  subst herr
  cases infl with
  | zero => omega
  | succ n =>
    have hh : (step { home := ⟨view, iid, ctx, rid, stt, cstep, lgs, ld, pch⟩
                      pollActive := pa, inFlight := n + 1, settlePending := sp }
                (.resolve (.ok ⟨dst, dmsg, dlogs, dcs, dpatch, none⟩))).home =
        { view := view, instanceId := iid, context := ctx, runId := rid
          status := dst, currentStep := jsOrNat dcs 0
          logs := jsOrList dlogs [], loading := ld
          patch := jsOrStr dpatch "" } := by
      by_cases hterm : dst = "completed" ∨ dst = "failed" <;>
        simp [step, pollApply, hterm]
    rw [hh]
    refine ⟨?_, ?_, ?_, ?_, ?_, ?_⟩ <;> simp only
    · intro m hm hmz
      subst hm
      simp [jsOrNat, hmz]
    · intro hm
      subst hm
      simp [jsOrNat]
    · intro hm
      subst hm
      simp [jsOrNat]
    · intro p hp hpz
      subst hp
      simp [jsOrStr, hpz]
    · intro hp
      subst hp
      simp [jsOrStr]
    · intro hp
      subst hp
      simp [jsOrStr]

/-- An observation whose optional fields are present but falsy. -/
def obsFalsy : StatusData :=
  { status := "processing", message := none, logs := none
    current_step := some 0, patch := some "", error := none }

theorem observation_falsy_defaults_witness :
    (step hudSys (.resolve (.ok obsFalsy))).home.currentStep = 0 ∧
    (step hudSys (.resolve (.ok obsFalsy))).home.patch = "" := by
  have h := observation_falsy_defaults hudSys obsFalsy (by decide) rfl
  exact ⟨h.2.1 rfl, h.2.2.2.2.1 rfl⟩

/-- C10: an observation with no `error` field whose status string is
neither `completed` nor `failed` — including strings outside the
documented enumeration, or the empty string — keeps the controller in
Active with the poller running, and the status string is stored verbatim;
the status bar colour lookup falls back to the error colour for any string
outside its four keys. -/
theorem unknown_status_stays_active
    (s : Sys) (d : StatusData)
    (hview : s.home.view = "hud") (hsp : s.settlePending = false)
    (hpoll : s.pollActive = true) (hin : 1 ≤ s.inFlight)
    (herr : d.error = none)
    (h1 : d.status ≠ "completed") (h2 : d.status ≠ "failed") :
    phase (step s (.resolve (.ok d))) = .active ∧
    (step s (.resolve (.ok d))).pollActive = true ∧
    (step s (.resolve (.ok d))).home.view = "hud" ∧
    (step s (.resolve (.ok d))).home.status = d.status ∧
    (d.status ≠ "idle" → d.status ≠ "processing" → d.status ≠ "error" →
      statusColor d.status = "bg-rose-500") := by
  obtain ⟨⟨view, iid, ctx, rid, stt, cstep, lgs, ld, pch⟩, pa, infl, sp⟩ := s
  obtain ⟨dst, dmsg, dlogs, dcs, dpatch, derr⟩ := d
  simp only at hview hsp hpoll hin herr h1 h2
  subst hview hsp hpoll herr
  cases infl with
  | zero => omega
  | succ n =>
    refine ⟨by simp [step, pollApply, phase, h1, h2],
            by simp [step, pollApply, h1, h2],
            by simp [step, pollApply, h1, h2],
            by simp [step, pollApply, h1, h2], ?_⟩
    intro ha hb hc
    simp only at ha hb hc
    have ba : (dst == "idle") = false := by simp [ha]
    have bb : (dst == "processing") = false := by simp [hb]
    have bc : (dst == "error") = false := by simp [hc]
    have bd : (dst == "completed") = false := by simp [h1]
    simp [statusColor, STATUS_COLORS, List.lookup, jsOrStr, ba, bb, bc, bd]

/-- An observation with a status string outside the documented set. -/
def obsRunning : StatusData :=
  { status := "running", message := none, logs := some ["step"]
    current_step := some 1, patch := none, error := none }

theorem unknown_status_stays_active_witness :
    phase (step hudSys (.resolve (.ok obsRunning))) = .active ∧
    (step hudSys (.resolve (.ok obsRunning))).pollActive = true ∧
    (step hudSys (.resolve (.ok obsRunning))).home.view = "hud" ∧
    (step hudSys (.resolve (.ok obsRunning))).home.status = "running" ∧
    statusColor "running" = "bg-rose-500" := by
  have h := unknown_status_stays_active hudSys obsRunning rfl rfl rfl
    (by decide) rfl (by decide) (by decide)
  exact ⟨h.1, h.2.1, h.2.2.1, h.2.2.2.1,
         h.2.2.2.2 (by decide) (by decide) (by decide)⟩
